import Mathlib

set_option maxHeartbeats 1000000

namespace BoostNode

/-! Shallow embedding of the boost-node graph facade: the Neo4j layer of
`neo4j_connection.py`, the endpoints of `routers/neo4j_router.py`, and the
Neo4j endpoints of `main.py`. Python values, exceptions and the graph store
are modelled explicitly; Neo4j ids are `Int`, property maps are
insertion-ordered association lists, matching Python dict semantics. -/

/-- Model of a `neo4j.time.DateTime` value (the temporal type the converter
handles), carried at seconds precision. -/
structure PyDateTime where
  year : Nat
  month : Nat
  day : Nat
  hour : Nat
  minute : Nat
  second : Nat
  deriving DecidableEq

/-- Left-pad the decimal form of a number with zeroes to the given width. -/
def padNum (width : Nat) (n : Nat) : String :=
  let s := toString n
  String.mk (List.replicate (width - s.length) (Char.ofNat 48)) ++ s

/-- Rendering of `datetime.isoformat()` for the modelled fields:
`YYYY-MM-DDTHH:MM:SS`. -/
def PyDateTime.isoformat (d : PyDateTime) : String :=
  padNum 4 d.year ++ "-" ++ padNum 2 d.month ++ "-" ++ padNum 2 d.day ++ "T" ++
    padNum 2 d.hour ++ ":" ++ padNum 2 d.minute ++ ":" ++ padNum 2 d.second

/-- `DateTime.to_native()`: conversion to a native `datetime.datetime`; on the
modelled fields it is the identity. -/
def PyDateTime.to_native (d : PyDateTime) : PyDateTime := d

/-- The Python values that appear as Neo4j property values and query-result
cells in this code base. `vdatetime` is a store-native temporal value. -/
inductive PyVal where
  | vnull
  | vbool (b : Bool)
  | vint (n : Int)
  | vstr (s : String)
  | vdatetime (d : PyDateTime)
  deriving DecidableEq

/-- A property mapping: insertion-ordered key/value pairs (a Python dict). -/
abbrev Props := List (String × PyVal)

/-- `convert_neo4j_to_python` (neo4j_connection.py lines 14-17): a DateTime
becomes its `to_native().isoformat()` string, everything else passes through. -/
def convert_neo4j_to_python : PyVal → PyVal
  | .vdatetime d => .vstr d.to_native.isoformat
  | v => v

/-- `convert_properties` (neo4j_connection.py lines 20-21): convert every value
of the mapping, keeping the keys. -/
def convert_properties (props : Props) : Props :=
  props.map (fun kv => (kv.1, convert_neo4j_to_python kv.2))

/-- A node held by the Neo4j store: server-assigned integer id, labels,
properties. -/
structure StoreNode where
  id : Int
  labels : List String
  props : Props
  deriving DecidableEq

/-- A relationship held by the store: id, type, endpoint node ids (start and
end of the directed edge), properties. -/
structure StoreRel where
  id : Int
  type : String
  startId : Int
  endId : Int
  props : Props
  deriving DecidableEq

/-- The mutable store state the create-relationship operations touch. -/
structure Store where
  nodes : List StoreNode
  rels : List StoreRel
  nextRelId : Int
  deriving DecidableEq

/-- Node JSON shape produced by `get_node_by_id` and `get_graph`:
id, labels, converted properties. -/
structure NodeJson where
  id : Int
  labels : List String
  properties : Props
  deriving DecidableEq

/-- Relationship JSON shape of `get_graph`: id, type, source/target node ids,
converted properties. -/
structure RelJson where
  id : Int
  type : String
  source : Int
  target : Int
  properties : Props
  deriving DecidableEq

/-- Relationship shape returned by `Neo4jConnection.create_relationship`:
id, type, start/end node ids, raw properties. -/
structure RelDetailJson where
  id : Int
  type : String
  start_node : Int
  end_node : Int
  properties : Props
  deriving DecidableEq

/-- Node shape returned by main.py `create_node`: id and raw properties only
(no labels key, no property conversion on this path). -/
structure MainNodeJson where
  id : Int
  properties : Props
  deriving DecidableEq

/-- Body of the `test-connection` success response. -/
structure StatusMessage where
  status : String
  message : PyVal
  deriving DecidableEq

/-- The node dict literal built at neo4j_connection.py lines 46-50 and
101-105/110-114. -/
def nodeToJson (nd : StoreNode) : NodeJson :=
  NodeJson.mk nd.id nd.labels (convert_properties nd.props)

/-- The relationship dict literal built at neo4j_connection.py lines 119-125. -/
def relToJson (rel : StoreRel) : RelJson :=
  RelJson.mk rel.id rel.type rel.startId rel.endId (convert_properties rel.props)

/-- The `nodes` Python dict of `get_graph`, keyed by node id: an
insertion-ordered association list. -/
abbrev NodesDict := List (Int × NodeJson)

/-- The key list of the node dict. -/
def dictKeys (d : NodesDict) : List Int :=
  d.map Prod.fst

/-- Python `key in dict`. -/
def dictContains (d : NodesDict) (k : Int) : Bool :=
  d.any (fun kv => kv.1 == k)

/-- Python `dict[key] = value` for a key that is not yet present: the new
entry is appended at the end of the insertion order. -/
def dictInsertNew (d : NodesDict) (k : Int) (v : NodeJson) : NodesDict :=
  d ++ [(k, v)]

/-- Driver truthiness of a node: in the neo4j Python driver `Entity.__len__`
is the property count and no `__bool__` is defined, so a node is truthy
exactly when it carries at least one property; `None` is falsy. -/
def StoreNode.truthy (nd : StoreNode) : Bool :=
  !nd.props.isEmpty

/-- Driver truthiness of a relationship, by the same `Entity.__len__` rule:
truthy exactly when it carries at least one property. -/
def StoreRel.truthy (rel : StoreRel) : Bool :=
  !rel.props.isEmpty

/-- One node-field block of the `get_graph` record loop
(neo4j_connection.py lines 98-114), guarded by
`if record[...] and record[...].id not in nodes:` — the first conjunct is
driver truthiness, so a property-less node is skipped; when the guard holds,
the node's JSON shape is added to the dict. -/
def processNodeField (d : NodesDict) (field : Option StoreNode) : NodesDict :=
  match field with
  | some nd =>
      if nd.truthy && !dictContains d nd.id then dictInsertNew d nd.id (nodeToJson nd)
      else d
  | none => d

/-- One driver record of `MATCH (n) OPTIONAL MATCH (n)-[r]->(m) RETURN n, r, m`:
`r` and `m` are `None` exactly when the optional match finds no relationship. -/
structure GraphRecord where
  n : Option StoreNode
  r : Option StoreRel
  m : Option StoreNode
  deriving DecidableEq

/-- The body of the record loop in `Neo4jConnection.get_graph`
(neo4j_connection.py lines 97-125): add `n`, then `m`, to the node dict;
append the relationship JSON when `if record["r"]:` holds — driver truthiness
again, so a present but property-less relationship is skipped too. -/
def processRecord (st : NodesDict × List RelJson) (rec : GraphRecord) :
    NodesDict × List RelJson :=
  (processNodeField (processNodeField st.1 rec.n) rec.m,
   match rec.r with
   | some rel => if rel.truthy then st.2 ++ [relToJson rel] else st.2
   | none => st.2)

/-- `Neo4jConnection.get_graph` result mapping (neo4j_connection.py lines
94-130): fold the records through the loop body starting from an empty dict
and an empty list, then return `(nodes.values(), relationships)`. -/
def get_graph (records : List GraphRecord) : List NodeJson × List RelJson :=
  ((records.foldl processRecord ([], [])).1.map Prod.snd,
   (records.foldl processRecord ([], [])).2)

/-- `Neo4jConnection.get_node_by_id` (neo4j_connection.py lines 38-50):
single-record lookup by internal id; `None` when no node matches. -/
def get_node_by_id (store : List StoreNode) (node_id : Int) : Option NodeJson :=
  match store.find? (fun nd => nd.id == node_id) with
  | none => none
  | some nd => some (nodeToJson nd)

/-- The Python exceptions visible in this code base. `httpException` models
`fastapi.HTTPException`, which subclasses `Exception`, so a bare
`except Exception` clause catches it too; `storeError` models any error
raised by the Neo4j driver or the runtime. -/
inductive PyExc where
  | httpException (status : Nat) (detail : String)
  | storeError (msg : String)
  deriving DecidableEq

/-- Python `str(e)`: Starlette renders an HTTPException as the status code, a
colon-space, and the detail; a driver error renders its message. -/
def PyExc.str : PyExc → String
  | .httpException st d => toString st ++ ": " ++ d
  | .storeError m => m

/-- Result of running a Python block: a normal return or a raised exception. -/
inductive PyResult (α : Type) where
  | ok (a : α)
  | raised (e : PyExc)
  deriving DecidableEq

/-- Python `try body except Exception as e: handler e` with a catch-all
clause: every exception, HTTPException included, reaches the handler. -/
def tryExceptAll {α : Type} (body : PyResult α) (handler : PyExc → PyResult α) :
    PyResult α :=
  match body with
  | .ok a => .ok a
  | .raised e => handler e

/-- State of one driver session. -/
structure SessState where
  opened : Bool
  closed : Bool
  deriving DecidableEq

/-- Python `try: body finally: fin` over an explicit session state: `fin`
runs whether the body returns normally or raises. -/
def tryFinally {α : Type} (body : SessState → PyResult α × SessState)
    (fin : SessState → SessState) (s : SessState) : PyResult α × SessState :=
  match body s with
  | (.ok a, s2) => (.ok a, fin s2)
  | (.raised e, s2) => (.raised e, fin s2)

/-- `Neo4jConnection.session` (neo4j_connection.py lines 27-33): open a
session, yield it to the wrapped block, close it in a `finally` clause. -/
def session_scope {α : Type} (body : SessState → PyResult α × SessState) :
    PyResult α × SessState :=
  tryFinally body (fun s => SessState.mk s.opened true) (SessState.mk true false)

/-- One single-quote character. -/
def sq : String := String.singleton (Char.ofNat 39)

/-- One backquote character (the Cypher identifier quote). -/
def bq : String := String.singleton (Char.ofNat 96)

/-- The safe identifier set named by the specification for labels and
relationship types: non-empty, alphanumeric or underscore only. -/
def isSafeIdentifier (s : String) : Bool :=
  !s.isEmpty && s.toList.all (fun c => c.isAlphanum || c == '_')

/-- The query text built by main.py `create_node` (lines 138-142): the label
is spliced straight into the text by an f-string; properties stay bound. -/
def create_node_query (label : String) : String :=
  "\n                CREATE (n:" ++ label ++ " $properties)\n                RETURN n\n                "

/-- The query text built by `Neo4jConnection.create_relationship` (lines
57-64): the relationship type is spliced into the text by `str.format`,
between backquotes. -/
def create_relationship_query (rel_type : String) : String :=
  "\n                MATCH (a), (b) \n                WHERE id(a) = $from_id AND id(b) = $to_id\n                CREATE (a)-[r:" ++
    bq ++ rel_type ++ bq ++
    "]->(b)\n                SET r = $props\n                RETURN r\n                "

/-- The query text built by main.py `create_relationship` (lines 117-123):
the relationship type is spliced in bare, the node ids are matched through
the `uiNodeId` property. -/
def api_relationship_query (rel_type : String) : String :=
  "\n                MATCH (from) WHERE from.uiNodeId = $from_id\n                MATCH (to) WHERE to.uiNodeId = $to_id\n                CREATE (from)-[r:" ++
    rel_type ++
    "]->(to)\n                SET r += $properties\n                RETURN r\n                "

/-- The literal query sent by `test_connection` (neo4j_router.py line 105). -/
def test_connection_query : String :=
  "RETURN " ++ sq ++ "Connected!" ++ sq ++ " AS message"

/-- The nodes whose `uiNodeId` property equals the given string value
(the match clauses of main.py lines 118-119). -/
def matchByUiNodeId (nodes : List StoreNode) (v : String) : List StoreNode :=
  nodes.filter (fun nd => nd.props.lookup "uiNodeId" == some (PyVal.vstr v))

/-- Store execution of a double-match create-relationship query: one directed
relationship per (from, to) match pair, with fresh ids and the bound
properties set on it. Returns the new store state and the created rows. -/
def execCreateRels (st : Store) (froms tos : List StoreNode) (rel_type : String)
    (props : Props) : Store × List StoreRel :=
  let pairs := froms.flatMap (fun a => tos.map (fun b => (a, b)))
  let created := pairs.enum.map
    (fun p => StoreRel.mk (st.nextRelId + (p.1 : Int)) rel_type p.2.1.id p.2.2.id props)
  (Store.mk st.nodes (st.rels ++ created) (st.nextRelId + (pairs.length : Int)), created)

/-- main.py `create_node` (lines 134-153): no label validation exists; the
handler always issues the interpolated query text. `storeReply` abstracts what
`result.single()` yields back for that text (a created node, no record, or a
driver error). Returns the HTTP result paired with the query texts issued to
the store. -/
def api_create_node (storeReply : PyResult (Option StoreNode)) (label : String)
    (properties : Props) : PyResult MainNodeJson × List String :=
  (tryExceptAll
    (match storeReply with
     | .raised e => .raised e
     | .ok none => .raised (.storeError "TypeError: NoneType is not subscriptable")
     | .ok (some nd) => .ok (MainNodeJson.mk nd.id nd.props))
    (fun e => .raised (.httpException 500 e.str)),
   [create_node_query label])

/-- main.py `create_relationship` (lines 112-132): run the uiNodeId-matching
query, ignore the result rows, return a fixed success message. Returns the
HTTP result, the new store state and the issued query texts. -/
def api_create_relationship (st : Store) (from_id to_id : String) (rel_type : String)
    (properties : Props) : PyResult String × Store × List String :=
  let froms := matchByUiNodeId st.nodes from_id
  let tos := matchByUiNodeId st.nodes to_id
  (.ok "Relationship created successfully",
   (execCreateRels st froms tos rel_type properties).1,
   [api_relationship_query rel_type])

/-- `Neo4jConnection.create_relationship` (neo4j_connection.py lines 52-80):
default the properties, match both nodes by internal id, create the edge,
return its dict shape or `None` when `result.single()` found no record.
No identifier validation exists on this path either; the query is always
issued. -/
def Neo4jConnection.create_relationship (st : Store) (from_id to_id : Int)
    (rel_type : String) (properties : Option Props) :
    Option RelDetailJson × Store × List String :=
  let props := properties.getD []
  let froms := st.nodes.filter (fun nd => nd.id == from_id)
  let tos := st.nodes.filter (fun nd => nd.id == to_id)
  let run := execCreateRels st froms tos rel_type props
  (match run.2.head? with
   | none => none
   | some rel => some (RelDetailJson.mk rel.id rel.type rel.startId rel.endId rel.props),
   run.1,
   [create_relationship_query rel_type])

/-- neo4j_router.py `create_relationship` (lines 75-89): a `None` result
raises a 500 inside the `try` block; the catch-all clause catches that
HTTPException and rewraps it, still as a 500. -/
def router_create_relationship (st : Store) (from_id to_id : Int) (rel_type : String)
    (properties : Option Props) : PyResult RelDetailJson × Store × List String :=
  let run := Neo4jConnection.create_relationship st from_id to_id rel_type properties
  (tryExceptAll
    (match run.1 with
     | none => .raised (.httpException 500 "Failed to create relationship")
     | some rj => .ok rj)
    (fun e => .raised (.httpException 500 ("Neo4j error: " ++ e.str))),
   run.2.1,
   run.2.2)

/-- neo4j_router.py `get_node` (lines 64-73): the whole body, the 404 raise
included, sits inside `try ... except Exception`, and HTTPException is an
Exception, so the 404 is caught and rewrapped by the 500 handler. -/
def router_get_node (store : List StoreNode) (node_id : Int) : PyResult NodeJson :=
  tryExceptAll
    (match get_node_by_id store node_id with
     | none =>
         .raised (.httpException 404 ("Node with ID " ++ toString node_id ++ " not found"))
     | some nj => .ok nj)
    (fun e => .raised (.httpException 500 ("Neo4j error: " ++ e.str)))

/-- Split a character list at every occurrence of the given character. -/
def splitAtChar (c : Char) : List Char → List (List Char)
  | [] => [[]]
  | x :: xs =>
      match splitAtChar c xs with
      | [] => if x == c then [[], [x]] else [[x]]
      | y :: ys => if x == c then [] :: y :: ys else (x :: y) :: ys

/-- Store-side reading of a query of the shape
`RETURN <single-quoted literal> AS <alias>` — the only query shape
`test_connection` sends. Yields the literal and the alias. -/
def parseReturnLiteral (q : String) : Option (String × String) :=
  match splitAtChar (Char.ofNat 39) q.toList with
  | [pre, lit, post] =>
      if pre = ("RETURN ").toList then
        match post with
        | ' ' :: 'A' :: 'S' :: ' ' :: aliasChars => some (String.mk lit, String.mk aliasChars)
        | _ => none
      else none
  | _ => none

/-- `Neo4jConnection.execute_query` (neo4j_connection.py lines 132-138)
against a store that is either reachable or not: reachable, the store
evaluates the literal-returning query to one row keyed by the alias;
unreachable, the driver raises. -/
def execute_query (reachable : Bool) (q : String) :
    PyResult (List (List (String × PyVal))) :=
  if reachable then
    match parseReturnLiteral q with
    | some al => .ok [[(al.2, PyVal.vstr al.1)]]
    | none => .raised (.storeError "SyntaxError")
  else
    .raised (.storeError "Connection refused")

/-- neo4j_router.py `test_connection` (lines 100-108): run the literal query,
return status success with `result[0]["message"]`; any exception becomes a
500 whose detail carries the underlying message. -/
def test_connection (reachable : Bool) : PyResult StatusMessage :=
  tryExceptAll
    (match execute_query reachable test_connection_query with
     | .raised e => .raised e
     | .ok rows =>
         match rows.head? with
         | none => .raised (.storeError "IndexError: list index out of range")
         | some row =>
             match row.lookup "message" with
             | some v => .ok (StatusMessage.mk "success" v)
             | none => .raised (.storeError "KeyError: message"))
    (fun e => .raised (.httpException 500 ("Neo4j connection failed: " ++ e.str)))

/-- Shape constraint on an optional-match record, from the Cypher query of
`get_graph` (`MATCH (n) OPTIONAL MATCH (n)-[r]->(m)`): whenever a
relationship is present, `n` and `m` are present and are its endpoints. -/
def WfRecord (rec : GraphRecord) : Prop :=
  ∀ rel, rec.r = some rel →
    ∃ a b, rec.n = some a ∧ rec.m = some b ∧ rel.startId = a.id ∧ rel.endId = b.id

/-- Well-formedness of the node dict: keys are pairwise distinct and every
stored node JSON carries its own key as id. -/
def dictWf (d : NodesDict) : Prop :=
  (dictKeys d).Nodup ∧ ∀ kv ∈ d, kv.2.id = kv.1

/-- Every collected relationship refers only to keys of the node dict. -/
def relsClosed (st : NodesDict × List RelJson) : Prop :=
  ∀ rj ∈ st.2, rj.source ∈ dictKeys st.1 ∧ rj.target ∈ dictKeys st.1

/-! Theorems. Helper lemmas come first, then one theorem per claim. -/

/-- Converting a single value is idempotent: a converted DateTime is a string,
which passes through unchanged. -/
theorem convert_pointwise_idem (v : PyVal) :
    convert_neo4j_to_python (convert_neo4j_to_python v) = convert_neo4j_to_python v := by
  cases v <;> rfl

/-- Claim C4: property conversion is idempotent, both on a single value and on
a whole property mapping. -/
theorem convert_idempotent :
    (∀ v : PyVal,
      convert_neo4j_to_python (convert_neo4j_to_python v) = convert_neo4j_to_python v) ∧
    (∀ p : Props, convert_properties (convert_properties p) = convert_properties p) := by
  refine ⟨convert_pointwise_idem, fun p => ?_⟩
  simp only [convert_properties, List.map_map]
  refine List.map_congr_left (fun kv _ => ?_)
  simp [Function.comp, convert_pointwise_idem]

/-- Claim C7: the converter sends a DateTime value to its ISO-8601 string,
leaves every other scalar value unchanged, and on a property mapping converts
every entry valuewise while preserving the key list. -/
theorem convert_spec :
    (∀ d : PyDateTime,
      convert_neo4j_to_python (.vdatetime d) = .vstr d.to_native.isoformat) ∧
    convert_neo4j_to_python .vnull = .vnull ∧
    (∀ b, convert_neo4j_to_python (.vbool b) = .vbool b) ∧
    (∀ n, convert_neo4j_to_python (.vint n) = .vint n) ∧
    (∀ s, convert_neo4j_to_python (.vstr s) = .vstr s) ∧
    (∀ p : Props, (convert_properties p).map Prod.fst = p.map Prod.fst) ∧
    (∀ (p : Props) (k : String) (v : PyVal),
      (k, v) ∈ p → (k, convert_neo4j_to_python v) ∈ convert_properties p) := by
  refine ⟨fun d => rfl, rfl, fun b => rfl, fun n => rfl, fun s => rfl, fun p => ?_, ?_⟩
  · simp [convert_properties, List.map_map]
  · intro p k v hv
    exact List.mem_map.mpr ⟨(k, v), hv, rfl⟩

/-- Witness for C7: the membership conjunct applied at a concrete mapping. -/
theorem convert_spec_witness :
    ("k", convert_neo4j_to_python (PyVal.vint 3)) ∈
      convert_properties [("k", PyVal.vint 3)] :=
  convert_spec.2.2.2.2.2.2 [("k", PyVal.vint 3)] "k" (PyVal.vint 3) (by simp)

/-- Claim C8: for every block run inside the scoped session, the session is
closed on every exit path, and the block's outcome — normal return or raised
exception alike — is propagated unchanged. -/
theorem session_closed_on_all_paths {α : Type}
    (body : SessState → PyResult α × SessState) :
    ((session_scope body).2).closed = true ∧
    (session_scope body).1 = (body (SessState.mk true false)).1 := by
  unfold session_scope tryFinally
  rcases hb : body (SessState.mk true false) with ⟨r, s2⟩
  cases r <;> simp [hb]

/-- Membership test of the node dict agrees with key membership. -/
theorem dictContains_iff (d : NodesDict) (k : Int) :
    dictContains d k = true ↔ k ∈ dictKeys d := by
  simp [dictContains, dictKeys, List.any_eq_true, List.mem_map, beq_iff_eq]

/-- Processing a node field never removes a key. -/
theorem processNodeField_keys_mono (d : NodesDict) (f : Option StoreNode) (k : Int)
    (h : k ∈ dictKeys d) : k ∈ dictKeys (processNodeField d f) := by
  cases f with
  | none => exact h
  | some nd =>
      by_cases hc : (nd.truthy && !dictContains d nd.id) = true
      · simp only [processNodeField, hc, if_true, dictInsertNew, dictKeys,
          List.map_append, List.mem_append]
        exact Or.inl h
      · simpa [processNodeField, hc] using h

/-- After processing a present truthy node field, the node's id is a key. -/
theorem processNodeField_some_mem (d : NodesDict) (nd : StoreNode)
    (ht : nd.truthy = true) : nd.id ∈ dictKeys (processNodeField d (some nd)) := by
  by_cases hc : dictContains d nd.id = true
  · simpa [processNodeField, ht, hc] using (dictContains_iff d nd.id).mp hc
  · simp [processNodeField, ht, hc, dictInsertNew, dictKeys, List.map_append]

/-- Processing a node field preserves well-formedness of the dict. -/
theorem processNodeField_wf (d : NodesDict) (f : Option StoreNode) (h : dictWf d) :
    dictWf (processNodeField d f) := by
  cases f with
  | none => exact h
  | some nd =>
      by_cases hc : (nd.truthy && !dictContains d nd.id) = true
      · have hcf : dictContains d nd.id = false := by
          have h2 := ((Bool.and_eq_true _ _).mp hc).2
          simpa using h2
        have hk : nd.id ∉ dictKeys d := fun hm =>
          absurd ((dictContains_iff d nd.id).mpr hm) (by simp [hcf])
        constructor
        · simp only [processNodeField, hc, if_true, dictInsertNew,
            dictKeys, List.map_append]
          refine List.Nodup.append h.1 (List.nodup_singleton _) ?_
          intro a ha hb
          simp only [List.map_cons, List.map_nil, List.mem_singleton] at hb
          exact hk (hb ▸ ha)
        · intro kv hkv
          simp only [processNodeField, hc, if_true, dictInsertNew,
            List.mem_append, List.mem_singleton] at hkv
          rcases hkv with hkv | hkv
          · exact h.2 kv hkv
          · subst hkv; rfl
      · simpa [processNodeField, hc] using h

/-- The record loop body preserves well-formedness of the node dict. -/
theorem processRecord_wf (st : NodesDict × List RelJson) (rec : GraphRecord)
    (h : dictWf st.1) : dictWf (processRecord st rec).1 :=
  processNodeField_wf _ _ (processNodeField_wf _ _ h)

/-- Folding the record loop preserves well-formedness of the node dict. -/
theorem foldl_wf (records : List GraphRecord) :
    ∀ st : NodesDict × List RelJson, dictWf st.1 →
      dictWf ((records.foldl processRecord st).1) := by
  induction records with
  | nil => intro st h; simpa using h
  | cons rec rest ih =>
      intro st h
      rw [List.foldl_cons]
      exact ih _ (processRecord_wf st rec h)

/-- Folding the record loop never removes a key of the node dict. -/
theorem foldl_keys_mono (records : List GraphRecord) :
    ∀ (st : NodesDict × List RelJson) (k : Int), k ∈ dictKeys st.1 →
      k ∈ dictKeys ((records.foldl processRecord st).1) := by
  induction records with
  | nil => intro st k h; simpa using h
  | cons rec rest ih =>
      intro st k h
      rw [List.foldl_cons]
      exact ih _ k (processNodeField_keys_mono _ _ _ (processNodeField_keys_mono _ _ _ h))

/-- On a well-formed dict, the ids of the stored values are the keys. -/
theorem dictWf_values_ids (d : NodesDict) (h : ∀ kv ∈ d, kv.2.id = kv.1) :
    (d.map Prod.snd).map NodeJson.id = dictKeys d := by
  simp only [dictKeys, List.map_map]
  exact List.map_congr_left (fun kv hkv => h kv hkv)

/-- The collected relationship list is exactly the present-and-truthy
relationships of the records, in order, each rendered through the relationship
dict literal. -/
theorem foldl_rels_eq (records : List GraphRecord) :
    ∀ st : NodesDict × List RelJson,
      (records.foldl processRecord st).2 =
        st.2 ++ ((records.filterMap GraphRecord.r).filter StoreRel.truthy).map relToJson := by
  induction records with
  | nil => intro st; simp
  | cons rec rest ih =>
      intro st
      rw [List.foldl_cons, ih]
      cases hr : rec.r with
      | none => simp [processRecord, hr, List.filterMap_cons]
      | some rel =>
          by_cases ht : rel.truthy = true
          · simp [processRecord, hr, ht, List.filterMap_cons, List.filter_cons]
          · simp [processRecord, hr, ht, List.filterMap_cons, List.filter_cons]

/-- The id of a record's matched truthy start node ends up among the dict
keys. -/
theorem foldl_record_node_mem (records : List GraphRecord)
    (st : NodesDict × List RelJson) (rec : GraphRecord) (hrec : rec ∈ records)
    (nd : StoreNode) (hn : rec.n = some nd) (ht : nd.truthy = true) :
    nd.id ∈ dictKeys ((records.foldl processRecord st).1) := by
  obtain ⟨s, t, rfl⟩ := List.append_of_mem hrec
  rw [List.foldl_append, List.foldl_cons]
  apply foldl_keys_mono
  have h1 : nd.id ∈ dictKeys (processNodeField (List.foldl processRecord st s).1 rec.n) := by
    rw [hn]; exact processNodeField_some_mem _ nd ht
  exact processNodeField_keys_mono _ _ _ h1

/-- A non-empty property list makes a node truthy. -/
theorem StoreNode.truthy_of_props_ne (nd : StoreNode) (hp : nd.props ≠ []) :
    nd.truthy = true := by
  cases hcase : nd.props with
  | nil => exact absurd hcase hp
  | cons a l => simp [StoreNode.truthy, hcase]

/-- Claim C5: in the graph-slice result, nodes are deduplicated by id — for
every list of input records, each node id occurs at most once in the returned
node list. -/
theorem get_graph_nodes_dedup (records : List GraphRecord) :
    (((get_graph records).1).map NodeJson.id).Nodup := by
  have hwf := foldl_wf records ([], []) ⟨List.nodup_nil, by simp⟩
  unfold get_graph
  rw [dictWf_values_ids _ hwf.2]
  exact hwf.1

/-- Counterexample to claim C6 as stated: a matched node with no properties is
falsy under the driver's entity truthiness, so the loop skips it — at this
record the optional match produced no relationship, no relationship entry is
contributed, yet the matched node does not reach the node list either. -/
theorem get_graph_falsy_node_skipped :
    (get_graph [GraphRecord.mk (some (StoreNode.mk 7 [] [])) none none]).2 = [] ∧
    (7 : Int) ∉
      ((get_graph [GraphRecord.mk (some (StoreNode.mk 7 [] [])) none none]).1).map
        NodeJson.id := by
  decide

/-- Claim C6 amended: a record whose optional match produced no relationship
contributes no relationship entry — the relationship list is exactly the
present-and-truthy relationships of the records — and every matched node that
carries at least one property still reaches the returned node list. A
property-less matched node is falsy to the driver and is skipped by the
loop guard. -/
theorem get_graph_optional_match_skip (records : List GraphRecord) :
    (get_graph records).2 =
      ((records.filterMap GraphRecord.r).filter StoreRel.truthy).map relToJson ∧
    ∀ rec ∈ records, ∀ nd : StoreNode, rec.n = some nd → nd.props ≠ [] →
      nd.id ∈ ((get_graph records).1).map NodeJson.id := by
  constructor
  · simpa using foldl_rels_eq records ([], [])
  · intro rec hrec nd hn hp
    have hwf := foldl_wf records ([], []) ⟨List.nodup_nil, by simp⟩
    unfold get_graph
    rw [dictWf_values_ids _ hwf.2]
    exact foldl_record_node_mem records ([], []) rec hrec nd hn
      (StoreNode.truthy_of_props_ne nd hp)

/-- Witness for C6: one record with a matched one-property node and no
relationship still contributes that node. -/
theorem get_graph_optional_match_skip_witness :
    (7 : Int) ∈
      ((get_graph [GraphRecord.mk
          (some (StoreNode.mk 7 [] [("p", PyVal.vint 1)])) none none]).1).map
        NodeJson.id :=
  (get_graph_optional_match_skip
      [GraphRecord.mk (some (StoreNode.mk 7 [] [("p", PyVal.vint 1)])) none none]).2
    (GraphRecord.mk (some (StoreNode.mk 7 [] [("p", PyVal.vint 1)])) none none) (by simp)
    (StoreNode.mk 7 [] [("p", PyVal.vint 1)]) rfl (by simp)

/-- The record loop body preserves closedness of the collected relationships,
for an optional-match-shaped record whose matched nodes carry at least one
property each. -/
theorem processRecord_relsClosed (st : NodesDict × List RelJson) (rec : GraphRecord)
    (hwfr : WfRecord rec)
    (hne : ∀ nd : StoreNode, rec.n = some nd ∨ rec.m = some nd → nd.props ≠ [])
    (h : relsClosed st) : relsClosed (processRecord st rec) := by
  intro rj hrj
  have mono : ∀ k, k ∈ dictKeys st.1 → k ∈ dictKeys (processRecord st rec).1 := fun k hk =>
    processNodeField_keys_mono _ _ _ (processNodeField_keys_mono _ _ _ hk)
  cases hr : rec.r with
  | none =>
      have hm : rj ∈ st.2 := by simpa [processRecord, hr] using hrj
      exact ⟨mono _ (h rj hm).1, mono _ (h rj hm).2⟩
  | some rel =>
      by_cases htr : rel.truthy = true
      · have hrj2 : rj ∈ st.2 ++ [relToJson rel] := by
          simpa [processRecord, hr, htr] using hrj
        rcases List.mem_append.mp hrj2 with hold | hnew
        · exact ⟨mono _ (h rj hold).1, mono _ (h rj hold).2⟩
        · obtain ⟨a, b, han, hbm, hs, he⟩ := hwfr rel hr
          have hta : a.truthy = true := StoreNode.truthy_of_props_ne a (hne a (Or.inl han))
          have htb : b.truthy = true := StoreNode.truthy_of_props_ne b (hne b (Or.inr hbm))
          have ha : a.id ∈ dictKeys (processNodeField st.1 rec.n) := by
            rw [han]; exact processNodeField_some_mem _ a hta
          have ha2 : a.id ∈ dictKeys (processRecord st rec).1 :=
            processNodeField_keys_mono _ _ _ ha
          have hb : b.id ∈ dictKeys (processRecord st rec).1 := by
            show b.id ∈ dictKeys (processNodeField (processNodeField st.1 rec.n) rec.m)
            rw [hbm]; exact processNodeField_some_mem _ b htb
          have hrjeq : rj = relToJson rel := by simpa using hnew
          subst hrjeq
          exact ⟨by simpa [relToJson, hs] using ha2, by simpa [relToJson, he] using hb⟩
      · have hm : rj ∈ st.2 := by simpa [processRecord, hr, htr] using hrj
        exact ⟨mono _ (h rj hm).1, mono _ (h rj hm).2⟩

/-- Folding the record loop preserves closedness of the relationships. -/
theorem foldl_relsClosed (records : List GraphRecord) :
    ∀ st : NodesDict × List RelJson,
      (∀ rec ∈ records, WfRecord rec) →
      (∀ rec ∈ records, ∀ nd : StoreNode,
        rec.n = some nd ∨ rec.m = some nd → nd.props ≠ []) →
      relsClosed st → relsClosed (records.foldl processRecord st) := by
  induction records with
  | nil => intro st _ _ h; simpa using h
  | cons rec rest ih =>
      intro st hwf hne h
      rw [List.foldl_cons]
      exact ih _ (fun r hr => hwf r (List.mem_cons_of_mem _ hr))
        (fun r hr => hne r (List.mem_cons_of_mem _ hr))
        (processRecord_relsClosed st rec (hwf rec (List.mem_cons_self _ _))
          (hne rec (List.mem_cons_self _ _)) h)

/-- Counterexample to claim C10 as stated: a propertied relationship to a
property-less node is appended to the relationship list while the falsy node
is skipped everywhere, so the relationship's target id has no entry in the
returned node list. -/
theorem get_graph_endpoint_missing :
    relToJson (StoreRel.mk 5 "T" 1 2 [("q", PyVal.vint 1)]) ∈
      (get_graph [GraphRecord.mk (some (StoreNode.mk 1 [] [("p", PyVal.vint 1)]))
        (some (StoreRel.mk 5 "T" 1 2 [("q", PyVal.vint 1)]))
        (some (StoreNode.mk 2 [] []))]).2 ∧
    (relToJson (StoreRel.mk 5 "T" 1 2 [("q", PyVal.vint 1)])).target ∉
      ((get_graph [GraphRecord.mk (some (StoreNode.mk 1 [] [("p", PyVal.vint 1)]))
        (some (StoreRel.mk 5 "T" 1 2 [("q", PyVal.vint 1)]))
        (some (StoreNode.mk 2 [] []))]).1).map NodeJson.id := by
  decide

/-- Claim C10 amended: over optional-match-shaped records whose matched nodes
all carry at least one property, the graph-slice result is internally
consistent — every returned relationship's source and target ids appear as
the id of some entry of the returned node list. A property-less endpoint node
is falsy to the driver, is skipped by the loop guard, and its id may be
absent from the node list. -/
theorem get_graph_endpoints_closed (records : List GraphRecord)
    (hwf : ∀ rec ∈ records, WfRecord rec)
    (hne : ∀ rec ∈ records, ∀ nd : StoreNode,
      rec.n = some nd ∨ rec.m = some nd → nd.props ≠ []) :
    ∀ rj ∈ (get_graph records).2,
      rj.source ∈ ((get_graph records).1).map NodeJson.id ∧
      rj.target ∈ ((get_graph records).1).map NodeJson.id := by
  intro rj hrj
  have hdict := foldl_wf records ([], []) ⟨List.nodup_nil, by simp⟩
  have hclosed := foldl_relsClosed records ([], []) hwf hne (by intro x hx; simp at hx)
  unfold get_graph at hrj ⊢
  rw [dictWf_values_ids _ hdict.2]
  exact hclosed rj hrj

/-- Witness for C10: a one-record slice of one-property nodes 1 and 2 joined
by a propertied relationship has both endpoints in the node list. -/
theorem get_graph_endpoints_closed_witness :
    (RelJson.mk 5 "KNOWS" 1 2 [("q", PyVal.vint 1)]).source ∈
      ((get_graph [GraphRecord.mk (some (StoreNode.mk 1 [] [("p", PyVal.vint 1)]))
        (some (StoreRel.mk 5 "KNOWS" 1 2 [("q", PyVal.vint 1)]))
        (some (StoreNode.mk 2 [] [("p", PyVal.vint 2)]))]).1).map NodeJson.id ∧
    (RelJson.mk 5 "KNOWS" 1 2 [("q", PyVal.vint 1)]).target ∈
      ((get_graph [GraphRecord.mk (some (StoreNode.mk 1 [] [("p", PyVal.vint 1)]))
        (some (StoreRel.mk 5 "KNOWS" 1 2 [("q", PyVal.vint 1)]))
        (some (StoreNode.mk 2 [] [("p", PyVal.vint 2)]))]).1).map NodeJson.id :=
  get_graph_endpoints_closed
    [GraphRecord.mk (some (StoreNode.mk 1 [] [("p", PyVal.vint 1)]))
      (some (StoreRel.mk 5 "KNOWS" 1 2 [("q", PyVal.vint 1)]))
      (some (StoreNode.mk 2 [] [("p", PyVal.vint 2)]))]
    (by
      intro rec hrec rel hrel
      simp only [List.mem_singleton] at hrec
      subst hrec
      injection hrel with h
      subst h
      exact ⟨StoreNode.mk 1 [] [("p", PyVal.vint 1)],
        StoreNode.mk 2 [] [("p", PyVal.vint 2)], rfl, rfl, rfl, rfl⟩)
    (by
      intro rec hrec nd hnd
      simp only [List.mem_singleton] at hrec
      subst hrec
      rcases hnd with h | h
      · injection h with h2
        subst h2
        simp
      · injection h with h2
        subst h2
        simp)
    (RelJson.mk 5 "KNOWS" 1 2 [("q", PyVal.vint 1)]) (by decide)

/-- Claim C1 (code bug): no identifier validation exists anywhere — create-node
splices the raw label and create-relationship the raw type into the query
text, both always issue the resulting query against the store, and a failure,
when one occurs, comes back from the store as a generic 500, never as an
InvalidLabel or InvalidRelationshipType error. Evaluated at identifiers
outside the safe set. -/
theorem create_operations_no_validation :
    isSafeIdentifier "bad label" = false ∧
    (api_create_node (PyResult.raised (PyExc.storeError "SyntaxError")) "bad label" []).2 =
      [create_node_query "bad label"] ∧
    (api_create_node (PyResult.raised (PyExc.storeError "SyntaxError")) "bad label" []).1 =
      PyResult.raised (PyExc.httpException 500 "SyntaxError") ∧
    isSafeIdentifier "also bad" = false ∧
    (Neo4jConnection.create_relationship (Store.mk [] [] 0) 1 2 "also bad" none).2.2 =
      [create_relationship_query "also bad"] :=
  ⟨by decide, rfl, rfl, by decide, rfl⟩

/-- Claim C2 (code bug): fetching a node id absent from the store does not
yield a 404 — the handler's own 404 HTTPException is caught by its catch-all
except clause and re-raised as a 500 store error. Evaluated at the failing
input: an empty store and id 42. -/
theorem router_get_node_missing_returns_500 :
    router_get_node [] 42 =
      PyResult.raised
        (PyExc.httpException 500 "Neo4j error: 404: Node with ID 42 not found") := by
  rfl

/-- Counterexample to claim C3 as stated: with an empty store, so that from_id
matches no node, POST /api/relationships reports success with HTTP 200 and
creates no relationship. -/
theorem api_create_relationship_unmatched_reports_success :
    (api_create_relationship (Store.mk [] [] 0) "a" "b" "KNOWS" []).1 =
      PyResult.ok "Relationship created successfully" ∧
    ((api_create_relationship (Store.mk [] [] 0) "a" "b" "KNOWS" []).2.1).rels = [] := by
  exact ⟨rfl, rfl⟩

/-- When either side of the double match is empty, the create-relationship
query creates nothing and leaves the relationship set unchanged. -/
theorem execCreateRels_empty (st : Store) (froms tos : List StoreNode)
    (rel_type : String) (props : Props) (h : froms = [] ∨ tos = []) :
    (execCreateRels st froms tos rel_type props).2 = [] ∧
    (execCreateRels st froms tos rel_type props).1.rels = st.rels := by
  have hp : froms.flatMap (fun a => tos.map (fun b => (a, b))) = [] := by
    rcases h with rfl | rfl
    · rfl
    · simp
  simp [execCreateRels, hp]

/-- Claim C3 amended: when from_id or to_id matches no node,
/neo4j/relationships fails with HTTP 500 and /api/relationships returns the
fixed success message with HTTP 200, leaving the relationship set unchanged —
the by-internal-id surface reports the failure, the by-uiNodeId surface
reports success although nothing was created. -/
theorem create_relationship_unmatched_behavior
    (st st2 : Store) (fid tid : Int) (fs ts : String) (rel_type : String)
    (props : Props) (props2 : Option Props)
    (h1 : st.nodes.filter (fun nd => nd.id == fid) = [] ∨
          st.nodes.filter (fun nd => nd.id == tid) = [])
    (h2 : matchByUiNodeId st2.nodes fs = [] ∨ matchByUiNodeId st2.nodes ts = []) :
    (router_create_relationship st fid tid rel_type props2).1 =
      PyResult.raised
        (PyExc.httpException 500 "Neo4j error: 500: Failed to create relationship") ∧
    (api_create_relationship st2 fs ts rel_type props).1 =
      PyResult.ok "Relationship created successfully" ∧
    ((api_create_relationship st2 fs ts rel_type props).2.1).rels = st2.rels := by
  obtain ⟨hc1, -⟩ := execCreateRels_empty st _ _ rel_type (props2.getD []) h1
  obtain ⟨-, hr2⟩ := execCreateRels_empty st2 _ _ rel_type props h2
  refine ⟨?_, rfl, ?_⟩
  · simp only [router_create_relationship, Neo4jConnection.create_relationship, hc1,
      tryExceptAll, PyExc.str]
    rfl
  · simpa [api_create_relationship] using hr2

/-- Witness for C3: the amended claim at an empty store and concrete ids. -/
theorem create_relationship_unmatched_behavior_witness :
    (router_create_relationship (Store.mk [] [] 0) 1 2 "KNOWS" none).1 =
      PyResult.raised
        (PyExc.httpException 500 "Neo4j error: 500: Failed to create relationship") ∧
    (api_create_relationship (Store.mk [] [] 0) "a" "b" "KNOWS" []).1 =
      PyResult.ok "Relationship created successfully" ∧
    ((api_create_relationship (Store.mk [] [] 0) "a" "b" "KNOWS" []).2.1).rels =
      (Store.mk [] [] 0).rels :=
  create_relationship_unmatched_behavior (Store.mk [] [] 0) (Store.mk [] [] 0)
    1 2 "a" "b" "KNOWS" [] none (Or.inl rfl) (Or.inl rfl)

/-- Claim C9: with a reachable store, test-connection returns status success
and the literal message sent back by the store for its literal query; with an
unreachable store it fails with a 500 whose detail carries the driver
error. -/
theorem test_connection_behavior :
    test_connection true =
      PyResult.ok (StatusMessage.mk "success" (PyVal.vstr "Connected!")) ∧
    test_connection false =
      PyResult.raised
        (PyExc.httpException 500 "Neo4j connection failed: Connection refused") := by
  exact ⟨by decide, by decide⟩

end BoostNode
